import Mathlib

/-!
Shallow embedding of the `xrd` package of crossplane-gen: a generator shim
(`Generate`) and a pure CRD-to-XRD mapper (`CRDToXRDv2`, `convertVersions`,
`convertSchema`), together with proofs of the specification claims.

Modelling conventions:
* The OpenAPI schema type (`apiextensionsv1.JSONSchemaProps`) is external and
  opaque to this package; it appears as a type parameter `σ`.  JSON encoding
  (`json.Marshal`) is an external operation that may fail, modelled as a
  parameter `marshal : σ → Option String` (`none` = encoding error, `some raw`
  = the serialized bytes stored in `runtime.RawExtension`).
* Go `nil` pointers / absent optional values are `Option`; Go maps of strings
  are association lists `List (String × String)`; a serialized top-level YAML
  document (Go `map[string]any`) is an association list `List (String × α)`
  with unique keys, so Go `delete(obj, "status")` removes every pair whose key
  is `"status"`.
* The generation driver (`genall`) is external: package discovery, CRD schema
  construction and the YAML writer are inputs to `Generate`
  (`metav1Found`, `kubeKinds`, `getCRD`, `readFile`, `marshalTopLevel`).
  File writes are recorded as events in an output trace; mapper invocations
  are likewise recorded, so that claims about "the mapper is not invoked" and
  "no file is written" are statable.
-/

namespace CrossplaneGen

/-- `metav1.ObjectMeta`, restricted to the fields the package reads:
name, annotations and labels. -/
structure ObjectMeta where
  name : String
  annotations : List (String × String)
  labels : List (String × String)
  deriving DecidableEq, Repr

/-- `apiextensionsv1.CustomResourceDefinitionNames` (shared by CRD and XRD). -/
structure CustomResourceDefinitionNames where
  plural : String
  singular : String
  shortNames : List String
  kind : String
  listKind : String
  categories : List String
  deriving DecidableEq, Repr

/-- `apiextensionsv1.CustomResourceColumnDefinition`: an additional printer
column, only ever copied through unchanged. -/
structure CustomResourceColumnDefinition where
  name : String
  type : String
  jsonPath : String
  deriving DecidableEq, Repr

/-- `apiextensionsv1.CustomResourceConversion`: the conversion strategy,
only ever copied through unchanged. -/
structure CustomResourceConversion where
  strategy : String
  deriving DecidableEq, Repr

/-- `apiextensionsv1.CustomResourceValidation`: an optional OpenAPI v3
schema of the opaque external schema type `σ`. -/
structure CustomResourceValidation (σ : Type) where
  openAPIV3Schema : Option σ
  deriving DecidableEq, Repr

/-- `apiextensionsv1.CustomResourceDefinitionVersion`. -/
structure CustomResourceDefinitionVersion (σ : Type) where
  name : String
  served : Bool
  storage : Bool
  deprecated : Bool
  deprecationWarning : Option String
  schema : Option (CustomResourceValidation σ)
  additionalPrinterColumns : List CustomResourceColumnDefinition
  deriving DecidableEq, Repr

/-- `apiextensionsv1.CustomResourceDefinitionSpec`, restricted to the fields
the package reads. -/
structure CustomResourceDefinitionSpec (σ : Type) where
  group : String
  names : CustomResourceDefinitionNames
  versions : List (CustomResourceDefinitionVersion σ)
  conversion : Option CustomResourceConversion
  deriving DecidableEq, Repr

/-- `apiextensionsv1.CustomResourceDefinition` (input of the mapper). -/
structure CustomResourceDefinition (σ : Type) where
  objectMeta : ObjectMeta
  spec : CustomResourceDefinitionSpec σ
  deriving DecidableEq, Repr

/-- `metav1.TypeMeta`. -/
structure TypeMeta where
  apiVersion : String
  kind : String
  deriving DecidableEq, Repr

/-- `xpv2.CompositeResourceValidation`: the re-encoded schema, held as raw
serialized bytes (`runtime.RawExtension.Raw`). -/
structure CompositeResourceValidation where
  openAPIV3Schema : String
  deriving DecidableEq, Repr

/-- `xpv2.CompositeResourceDefinitionVersion` (output version entry). -/
structure CompositeResourceDefinitionVersion where
  name : String
  referenceable : Bool
  served : Bool
  schema : Option CompositeResourceValidation
  additionalPrinterColumns : List CustomResourceColumnDefinition
  deprecated : Option Bool
  deprecationWarning : Option String
  deriving DecidableEq, Repr

/-- `xpv2.CompositeResourceDefinitionSpec`, restricted to the fields the
mapper sets. -/
structure CompositeResourceDefinitionSpec where
  group : String
  names : CustomResourceDefinitionNames
  versions : List CompositeResourceDefinitionVersion
  conversion : Option CustomResourceConversion
  deriving DecidableEq, Repr

/-- `xpv2.CompositeResourceDefinition` (output of the mapper). -/
structure CompositeResourceDefinition where
  typeMeta : TypeMeta
  objectMeta : ObjectMeta
  spec : CompositeResourceDefinitionSpec
  deriving DecidableEq, Repr

/-- `xpv2.SchemeGroupVersion.String()`: the Crossplane apiextensions v2 API
group/version string (constant of the external crossplane library). -/
def SchemeGroupVersionString : String := "apiextensions.crossplane.io/v2"

/-- `xpv2.CompositeResourceDefinitionKind` (constant of the external
crossplane library). -/
def CompositeResourceDefinitionKind : String := "CompositeResourceDefinition"

/-- `convertSchema`: re-encode an optional CRD validation schema.  A `nil`
validation or `nil` inner schema yields `nil`; an encoding error
(`marshal s = none`, mirroring `json.Marshal` returning a non-nil error) is
swallowed and also yields `nil`; otherwise the raw bytes are wrapped. -/
def convertSchema (marshal : σ → Option String)
    (crdSchema : Option (CustomResourceValidation σ)) :
    Option CompositeResourceValidation :=
  match crdSchema with
  | none => none
  | some cv =>
    match cv.openAPIV3Schema with
    | none => none
    | some s =>
      match marshal s with
      | none => none
      | some raw => some { openAPIV3Schema := raw }

/-- Body of the loop in `convertVersions`: build one output version from one
input version.  The struct literal sets name / referenceable / served /
schema; printer columns are then copied only if non-empty, and the deprecated
flag and warning message are copied only if the flag is true
(`xrdVer.Deprecated = &crdVer.Deprecated`). -/
def convertVersion (marshal : σ → Option String)
    (crdVer : CustomResourceDefinitionVersion σ) :
    CompositeResourceDefinitionVersion :=
  let xrdVer : CompositeResourceDefinitionVersion :=
    { name := crdVer.name
      referenceable := crdVer.storage
      served := crdVer.served
      schema := convertSchema marshal crdVer.schema
      additionalPrinterColumns := []
      deprecated := none
      deprecationWarning := none }
  let xrdVer :=
    if crdVer.additionalPrinterColumns.length > 0 then
      { xrdVer with additionalPrinterColumns := crdVer.additionalPrinterColumns }
    else xrdVer
  let xrdVer :=
    if crdVer.deprecated then
      { xrdVer with
          deprecated := some crdVer.deprecated
          deprecationWarning := crdVer.deprecationWarning }
    else xrdVer
  xrdVer

/-- `convertVersions`: the `for ... append` loop over the input versions,
accumulating output versions in input order. -/
def convertVersions (marshal : σ → Option String)
    (crdVersions : List (CustomResourceDefinitionVersion σ)) :
    List CompositeResourceDefinitionVersion :=
  crdVersions.foldl (fun xrdVersions crdVer =>
    xrdVersions ++ [convertVersion marshal crdVer]) []

/-- `CRDToXRDv2`: convert a CRD to a Crossplane XRD (v2).  Builds the XRD
from identity fields, converted versions, and the constant type metadata;
copies the conversion strategy only if present; always returns `(xrd, nil)`. -/
def CRDToXRDv2 (marshal : σ → Option String)
    (crd : CustomResourceDefinition σ) :
    Except String CompositeResourceDefinition :=
  let xrd : CompositeResourceDefinition :=
    { typeMeta :=
        { apiVersion := SchemeGroupVersionString
          kind := CompositeResourceDefinitionKind }
      objectMeta :=
        { name := crd.objectMeta.name
          annotations := crd.objectMeta.annotations
          labels := crd.objectMeta.labels }
      spec :=
        { group := crd.spec.group
          names := crd.spec.names
          versions := convertVersions marshal crd.spec.versions
          conversion := none } }
  let xrd :=
    match crd.spec.conversion with
    | some c => { xrd with spec := { xrd.spec with conversion := some c } }
    | none => xrd
  Except.ok xrd

/-- State-passing embedding of `CRDToXRDv2`: the Go function receives a
pointer to the CRD, so the CRD cell is threaded through the call and returned
alongside the result.  Every statement of the Go body only reads through the
pointer (all assignments target the local `xrd`; `&crdVer.Deprecated` in the
loop takes the address of the per-iteration copy, not of the input), so the
threaded cell passes through unchanged. -/
def CRDToXRDv2Run (marshal : σ → Option String)
    (crd : CustomResourceDefinition σ) :
    Except String CompositeResourceDefinition × CustomResourceDefinition σ :=
  (CRDToXRDv2 marshal crd, crd)

/-- `schema.GroupKind`: a discovered API kind (key of
`parser.CustomResourceDefinitions`). -/
structure GroupKind where
  group : String
  kind : String
  deriving DecidableEq, Repr

/-- The `Generator` configuration struct: optional marker-set fields plus the
header file name and the year string. -/
structure Generator where
  ignoreUnexportedFields : Option Bool
  allowDangerousTypes : Option Bool
  maxDescLen : Option Nat
  generateEmbeddedObjectMeta : Option Bool
  headerFile : String
  year : String

/-- `removeXRDStatus`: the post-serialization transform handed to
`ctx.WriteYAML`, performing `delete(obj, "status")` on the document's
top-level `map[string]any`.  On the association-list representation of a map
(unique keys) deletion removes every pair whose key is `"status"`. -/
def removeXRDStatus (obj : List (String × α)) : List (String × α) :=
  obj.filter (fun kv => kv.1 ≠ "status")

/-- One observable action of a `Generate` run: an invocation of the
CRD-to-XRD mapper for a kind, or a file write performed by `ctx.WriteYAML`
(file name, prepended header text, and the transformed top-level document). -/
inductive Event (α : Type) where
  | convert (gk : GroupKind)
  | write (gk : GroupKind) (fileName : String) (headerText : String)
      (doc : List (String × α))
  deriving DecidableEq, Repr

/-- The error message produced by the storage-version check:
`fmt.Errorf("XRD %s.%s must have at least one version with
+kubebuilder:storageversion marker", groupKind.Kind, groupKind.Group)`. -/
def storageErrMsg (gk : GroupKind) : String :=
  "XRD " ++ gk.kind ++ "." ++ gk.group ++
    " must have at least one version with +kubebuilder:storageversion marker"

/-- The per-kind loop of `Generate`: for each discovered kind in order,
fetch the constructed CRD, check that some version has `storage = true`
(else fail with `storageErrMsg`), convert via `CRDToXRDv2` (wrapping any
error), and write `<group>_<plural>.yaml` through the YAML writer with the
`removeXRDStatus` transform applied to the serialized document.  Returns the
trace of events together with the error, if any, that aborted the loop.
`marshalTopLevel` is the external YAML/JSON serializer taking the XRD to its
top-level document. -/
def processKinds (marshal : σ → Option String)
    (marshalTopLevel : CompositeResourceDefinition → List (String × α))
    (getCRD : GroupKind → CustomResourceDefinition σ)
    (headerText : String) :
    List GroupKind → List (Event α) × Option String
  | [] => ([], none)
  | gk :: rest =>
    let crdRaw := getCRD gk
    let hasStorage := crdRaw.spec.versions.any (fun ver => ver.storage)
    if !hasStorage then
      ([], some (storageErrMsg gk))
    else
      match CRDToXRDv2 marshal crdRaw with
      | Except.error e =>
        ([Event.convert gk],
          some ("failed to convert CRD to XRD for " ++ gk.kind ++ "." ++
            gk.group ++ ": " ++ e))
      | Except.ok xrd =>
        let fileName := crdRaw.spec.group ++ "_" ++ crdRaw.spec.names.plural
          ++ ".yaml"
        let doc := removeXRDStatus (marshalTopLevel xrd)
        let r := processKinds marshal marshalTopLevel getCRD headerText rest
        (Event.convert gk :: Event.write gk fileName headerText doc :: r.1,
          r.2)

/-- The header-file read in `Generate`: `ctx.ReadFile(g.HeaderFile)` when a
header file is configured, the empty header otherwise. -/
def headerRead (g : Generator) (readFile : String → Except String String) :
    Except String String :=
  if g.headerFile ≠ "" then readFile g.headerFile else Except.ok ""

/-- `Generate`: return successfully with no output when the metav1 package
cannot be located or no kube kinds were discovered; otherwise read the header
file (propagating a read error), substitute `" YEAR"` by a space followed by
the configured year (`strings.ReplaceAll`), and run the per-kind loop.
Package discovery and CRD construction are external, given by `metav1Found`,
`kubeKinds` and `getCRD`. -/
def Generate (g : Generator) (readFile : String → Except String String)
    (metav1Found : Bool) (kubeKinds : List GroupKind)
    (getCRD : GroupKind → CustomResourceDefinition σ)
    (marshal : σ → Option String)
    (marshalTopLevel : CompositeResourceDefinition → List (String × α)) :
    List (Event α) × Option String :=
  if !metav1Found then ([], none)
  else if kubeKinds.length = 0 then ([], none)
  else
    match headerRead g readFile with
    | Except.error e => ([], some e)
    | Except.ok contents =>
      let headerText := contents.replace " YEAR" (" " ++ g.year)
      processKinds marshal marshalTopLevel getCRD headerText kubeKinds

/-! Concrete sample inputs, used by the witness theorems. -/

/-- A version entry with `storage = true`. -/
def sampleVersion : CustomResourceDefinitionVersion Unit :=
  { name := "v1", served := true, storage := true, deprecated := false
    deprecationWarning := none, schema := none, additionalPrinterColumns := [] }

/-- A version entry with `storage = false`. -/
def noStorageVersion : CustomResourceDefinitionVersion Unit :=
  { name := "v1alpha1", served := true, storage := false, deprecated := false
    deprecationWarning := none, schema := none, additionalPrinterColumns := [] }

/-- A version entry whose schema the marshaller `fun _ => none` fails to
encode. -/
def failingSchemaVersion : CustomResourceDefinitionVersion Unit :=
  { name := "v2", served := true, storage := false, deprecated := false
    deprecationWarning := none, schema := some { openAPIV3Schema := some () }
    additionalPrinterColumns := [] }

/-- A deprecated version entry carrying a warning message. -/
def deprecatedVersion : CustomResourceDefinitionVersion Unit :=
  { name := "v1beta1", served := true, storage := false, deprecated := true
    deprecationWarning := some "use v1 instead", schema := none
    additionalPrinterColumns := [] }

/-- A non-deprecated version entry that nevertheless carries a message. -/
def notDeprecatedVersion : CustomResourceDefinitionVersion Unit :=
  { name := "v1beta2", served := true, storage := false, deprecated := false
    deprecationWarning := some "ignored", schema := none
    additionalPrinterColumns := [] }

/-- Naming struct of the sample CRD. -/
def sampleNames : CustomResourceDefinitionNames :=
  { plural := "widgets", singular := "widget", shortNames := [], kind := "Widget"
    listKind := "WidgetList", categories := [] }

/-- A CRD with one storage version. -/
def sampleCRD : CustomResourceDefinition Unit :=
  { objectMeta :=
      { name := "widgets.example.org"
        annotations := [("meta.example.org/owner", "platform")]
        labels := [("app", "widgets")] }
    spec :=
      { group := "example.org", names := sampleNames
        versions := [sampleVersion], conversion := none } }

/-- A CRD none of whose versions is a storage version. -/
def noStorageCRD : CustomResourceDefinition Unit :=
  { objectMeta :=
      { name := "widgets.example.org", annotations := [], labels := [] }
    spec :=
      { group := "example.org", names := sampleNames
        versions := [noStorageVersion], conversion := none } }

/-- A discovered group/kind for the sample CRDs. -/
def sampleGK : GroupKind := { group := "example.org", kind := "Widget" }

/-- A generator configuration with no header file. -/
def plainGenerator : Generator :=
  { ignoreUnexportedFields := none, allowDangerousTypes := none
    maxDescLen := none, generateEmbeddedObjectMeta := none
    headerFile := "", year := "" }

/-- A generator configuration with a header file and a year. -/
def headerGenerator : Generator :=
  { ignoreUnexportedFields := none, allowDangerousTypes := none
    maxDescLen := none, generateEmbeddedObjectMeta := none
    headerFile := "hdr.txt", year := "2024" }

/-- A file reader that fails on every path (never consulted when no header
file is configured). -/
def failingReadFile : String → Except String String :=
  fun _ => Except.error "no file"

/-- A file reader returning a fixed header template. -/
def headerReadFile : String → Except String String :=
  fun _ => Except.ok "Copyright YEAR Example"

/-- A top-level serializer whose output contains a `status` key, to exercise
the `removeXRDStatus` transform. -/
def statusMarshalTopLevel : CompositeResourceDefinition → List (String × Nat) :=
  fun _ => [("status", 0), ("spec", 1)]

/-! Helper lemmas about the embedded operations. -/

/-- Folding a snoc over a list is mapping. -/
theorem foldl_snoc_eq_append_map {β γ : Type _} (f : β → γ) :
    ∀ (l : List β) (acc : List γ),
      l.foldl (fun a v => a ++ [f v]) acc = acc ++ l.map f := by
  intro l
  induction l with
  | nil => intro acc; simp
  | cons x xs ih =>
    intro acc
    rw [List.foldl_cons, ih (acc ++ [f x])]
    simp

/-- The `convertVersions` loop is a map of `convertVersion` over the input,
in input order. -/
theorem convertVersions_eq_map (marshal : σ → Option String)
    (vs : List (CustomResourceDefinitionVersion σ)) :
    convertVersions marshal vs = vs.map (convertVersion marshal) := by
  rw [convertVersions, foldl_snoc_eq_append_map]
  simp

/-- Closed form of `CRDToXRDv2`: it always returns `Except.ok` and the
result's fields are exactly the copied and converted input fields. -/
theorem CRDToXRDv2_eq (marshal : σ → Option String)
    (crd : CustomResourceDefinition σ) :
    CRDToXRDv2 marshal crd = Except.ok
      { typeMeta :=
          { apiVersion := SchemeGroupVersionString
            kind := CompositeResourceDefinitionKind }
        objectMeta :=
          { name := crd.objectMeta.name
            annotations := crd.objectMeta.annotations
            labels := crd.objectMeta.labels }
        spec :=
          { group := crd.spec.group
            names := crd.spec.names
            versions := convertVersions marshal crd.spec.versions
            conversion := crd.spec.conversion } } := by
  unfold CRDToXRDv2
  cases h : crd.spec.conversion <;> simp [h]

/-- The name field of a converted version. -/
theorem convertVersion_name (marshal : σ → Option String)
    (v : CustomResourceDefinitionVersion σ) :
    (convertVersion marshal v).name = v.name := by
  unfold convertVersion
  dsimp only
  split <;> split <;> rfl

/-- The referenceable field of a converted version is the input's storage
flag. -/
theorem convertVersion_referenceable (marshal : σ → Option String)
    (v : CustomResourceDefinitionVersion σ) :
    (convertVersion marshal v).referenceable = v.storage := by
  unfold convertVersion
  dsimp only
  split <;> split <;> rfl

/-- The served field of a converted version is the input's served flag. -/
theorem convertVersion_served (marshal : σ → Option String)
    (v : CustomResourceDefinitionVersion σ) :
    (convertVersion marshal v).served = v.served := by
  unfold convertVersion
  dsimp only
  split <;> split <;> rfl

/-- The schema field of a converted version is the re-encoded input schema. -/
theorem convertVersion_schema (marshal : σ → Option String)
    (v : CustomResourceDefinitionVersion σ) :
    (convertVersion marshal v).schema = convertSchema marshal v.schema := by
  unfold convertVersion
  dsimp only
  split <;> split <;> rfl

/-- Deprecation fields of a converted version when the input flag is true. -/
theorem convertVersion_deprecated_true (marshal : σ → Option String)
    (v : CustomResourceDefinitionVersion σ) (h : v.deprecated = true) :
    (convertVersion marshal v).deprecated = some true ∧
    (convertVersion marshal v).deprecationWarning = v.deprecationWarning := by
  unfold convertVersion
  dsimp only
  rw [h, if_pos rfl]
  exact ⟨rfl, rfl⟩

/-- Deprecation fields of a converted version when the input flag is false. -/
theorem convertVersion_deprecated_false (marshal : σ → Option String)
    (v : CustomResourceDefinitionVersion σ) (h : v.deprecated = false) :
    (convertVersion marshal v).deprecated = none ∧
    (convertVersion marshal v).deprecationWarning = none := by
  unfold convertVersion
  dsimp only
  rw [h, if_neg Bool.false_ne_true]
  constructor <;> (split <;> rfl)

/-- `removeXRDStatus` really removes the `status` key: no key of the
transformed document equals `"status"`. -/
theorem removeXRDStatus_no_status_key (obj : List (String × α)) :
    "status" ∉ (removeXRDStatus obj).map Prod.fst := by
  intro hmem
  rcases List.mem_map.mp hmem with ⟨kv, hkv, hfst⟩
  rcases List.mem_filter.mp hkv with ⟨_, hp⟩
  have hne : kv.1 ≠ "status" := by simpa using hp
  exact hne hfst

/-- The error produced by the per-kind loop is exactly the storage-version
message of the first discovered kind none of whose versions is a storage
version, and `none` when every kind has one. -/
theorem processKinds_err (marshal : σ → Option String)
    (mtl : CompositeResourceDefinition → List (String × α))
    (getCRD : GroupKind → CustomResourceDefinition σ) (ht : String)
    (l : List GroupKind) :
    (processKinds marshal mtl getCRD ht l).2 =
      (l.find? (fun k =>
        !((getCRD k).spec.versions.any (fun v => v.storage)))).map
        storageErrMsg := by
  induction l with
  | nil => rfl
  | cons gk rest ih =>
    cases h : (getCRD gk).spec.versions.any (fun v => v.storage) with
    | false => simp [processKinds, h, List.find?_cons]
    | true => simp [processKinds, h, List.find?_cons, CRDToXRDv2_eq, ih]

/-- A kind none of whose versions is a storage version generates no events:
the loop never invokes the mapper for it and never writes a file for it. -/
theorem processKinds_no_events_for_storageless (marshal : σ → Option String)
    (mtl : CompositeResourceDefinition → List (String × α))
    (getCRD : GroupKind → CustomResourceDefinition σ) (ht : String)
    (gk : GroupKind)
    (hns : (getCRD gk).spec.versions.any (fun v => v.storage) = false)
    (l : List GroupKind) :
    Event.convert gk ∉ (processKinds marshal mtl getCRD ht l).1 ∧
    ∀ fn hdr d,
      Event.write gk fn hdr d ∉ (processKinds marshal mtl getCRD ht l).1 := by
  induction l with
  | nil => simp [processKinds]
  | cons k rest ih =>
    cases h : (getCRD k).spec.versions.any (fun v => v.storage) with
    | false => simp [processKinds, h]
    | true =>
      have hk : gk ≠ k := by
        intro e
        rw [← e, hns] at h
        exact Bool.false_ne_true h
      constructor
      · simp [processKinds, h, CRDToXRDv2_eq, hk, ih.1]
      · intro fn hdr d
        simp [processKinds, h, CRDToXRDv2_eq, hk, ih.2 fn hdr d]

/-- Every write event of the per-kind loop carries the configured header
text, the `<group>_<plural>.yaml` file name of its kind, and a document with
no top-level `status` key. -/
theorem processKinds_write_fields (marshal : σ → Option String)
    (mtl : CompositeResourceDefinition → List (String × α))
    (getCRD : GroupKind → CustomResourceDefinition σ) (ht : String)
    (l : List GroupKind) (gk : GroupKind) (fn hdr : String)
    (d : List (String × α))
    (hmem : Event.write gk fn hdr d ∈ (processKinds marshal mtl getCRD ht l).1) :
    hdr = ht ∧
    fn = (getCRD gk).spec.group ++ "_" ++ (getCRD gk).spec.names.plural
      ++ ".yaml" ∧
    "status" ∉ d.map Prod.fst := by
  induction l with
  | nil => simp [processKinds] at hmem
  | cons k rest ih =>
    cases h : (getCRD k).spec.versions.any (fun v => v.storage) with
    | false =>
      rw [processKinds] at hmem
      simp [h] at hmem
    | true =>
      rw [processKinds] at hmem
      simp only [h, Bool.not_true, Bool.false_eq_true, if_false,
        CRDToXRDv2_eq, List.mem_cons] at hmem
      rcases hmem with h1 | h2 | h3
      · cases h1
      · rcases Event.write.inj h2 with ⟨hgk, hfn, hhdr, hd⟩
        subst hgk
        refine ⟨hhdr, hfn, ?_⟩
        rw [hd]
        exact removeXRDStatus_no_status_key _
      · exact ih h3

/-- A write event of a full `Generate` run comes from the per-kind loop, run
with the header text obtained by substituting the year into the successfully
read header file contents. -/
theorem generate_write_mem (g : Generator)
    (readFile : String → Except String String) (metav1Found : Bool)
    (kubeKinds : List GroupKind)
    (getCRD : GroupKind → CustomResourceDefinition σ)
    (marshal : σ → Option String)
    (mtl : CompositeResourceDefinition → List (String × α))
    (gk : GroupKind) (fn hdr : String) (d : List (String × α))
    (hmem : Event.write gk fn hdr d ∈
      (Generate g readFile metav1Found kubeKinds getCRD marshal mtl).1) :
    ∃ s, headerRead g readFile = Except.ok s ∧
      Event.write gk fn hdr d ∈
        (processKinds marshal mtl getCRD
          (s.replace " YEAR" (" " ++ g.year)) kubeKinds).1 := by
  unfold Generate at hmem
  cases metav1Found with
  | false => simp at hmem
  | true =>
    simp only [Bool.not_true, Bool.false_eq_true, if_false] at hmem
    by_cases hlen : kubeKinds.length = 0
    · rw [if_pos hlen] at hmem
      simp at hmem
    · rw [if_neg hlen] at hmem
      cases hh : headerRead g readFile with
      | error e =>
        rw [hh] at hmem
        simp at hmem
      | ok s =>
        rw [hh] at hmem
        exact ⟨s, rfl, hmem⟩

/-! Additional concrete collaborators, used by the witness theorems. -/

/-- The CRD lookup returning the storage-version-less sample CRD. -/
def noStorageGetCRD : GroupKind → CustomResourceDefinition Unit :=
  fun _ => noStorageCRD

/-- The CRD lookup returning the sample CRD with a storage version. -/
def storageGetCRD : GroupKind → CustomResourceDefinition Unit :=
  fun _ => sampleCRD

/-- A schema marshaller over the trivial schema type that always fails. -/
def unitMarshal : Unit → Option String := fun _ => none

/-- A top-level serializer producing an empty document. -/
def emptyMarshalTopLevel : CompositeResourceDefinition → List (String × Nat) :=
  fun _ => []

/-! The specification claims. -/

/-- C1: a CRD with no storage version makes the generation run fail with the
error naming the (first) offending kind and group; the mapper is never
invoked for that kind and no file is written for it. -/
theorem generate_rejects_missing_storage
    (g : Generator) (readFile : String → Except String String)
    (kubeKinds : List GroupKind)
    (getCRD : GroupKind → CustomResourceDefinition σ)
    (marshal : σ → Option String)
    (mtl : CompositeResourceDefinition → List (String × α))
    (gk : GroupKind) (s : String)
    (hmem : gk ∈ kubeKinds)
    (hns : (getCRD gk).spec.versions.any (fun v => v.storage) = false)
    (hhdr : headerRead g readFile = Except.ok s) :
    (∃ gk0, gk0 ∈ kubeKinds ∧
      (getCRD gk0).spec.versions.any (fun v => v.storage) = false ∧
      (Generate g readFile true kubeKinds getCRD marshal mtl).2 =
        some (storageErrMsg gk0)) ∧
    Event.convert gk ∉
      (Generate g readFile true kubeKinds getCRD marshal mtl).1 ∧
    ∀ fn hdr d, Event.write gk fn hdr d ∉
      (Generate g readFile true kubeKinds getCRD marshal mtl).1 := by
  have hne : kubeKinds ≠ [] := List.ne_nil_of_mem hmem
  have hgen : Generate g readFile true kubeKinds getCRD marshal mtl =
      processKinds marshal mtl getCRD
        (s.replace " YEAR" (" " ++ g.year)) kubeKinds := by
    simp [Generate, hhdr, List.length_eq_zero, hne]
  rw [hgen]
  have hfind : (kubeKinds.find? (fun k =>
      !((getCRD k).spec.versions.any (fun v => v.storage)))).isSome := by
    rw [List.find?_isSome]
    exact ⟨gk, hmem, by simp [hns]⟩
  obtain ⟨gk0, hgk0⟩ := Option.isSome_iff_exists.mp hfind
  refine ⟨⟨gk0, List.mem_of_find?_eq_some hgk0, ?_, ?_⟩, ?_, ?_⟩
  · have hp := List.find?_some hgk0
    simpa using hp
  · rw [processKinds_err, hgk0]
    rfl
  · exact (processKinds_no_events_for_storageless marshal mtl getCRD _
      gk hns kubeKinds).1
  · exact (processKinds_no_events_for_storageless marshal mtl getCRD _
      gk hns kubeKinds).2

/-- Witness for C1: a single discovered kind whose CRD has no storage
version. -/
theorem generate_rejects_missing_storage_witness :
    (∃ gk0, gk0 ∈ [sampleGK] ∧
      (noStorageGetCRD gk0).spec.versions.any (fun v => v.storage) = false ∧
      (Generate plainGenerator failingReadFile true [sampleGK] noStorageGetCRD
        unitMarshal emptyMarshalTopLevel).2 = some (storageErrMsg gk0)) ∧
    Event.convert sampleGK ∉
      (Generate plainGenerator failingReadFile true [sampleGK] noStorageGetCRD
        unitMarshal emptyMarshalTopLevel).1 ∧
    ∀ fn hdr d, Event.write sampleGK fn hdr d ∉
      (Generate plainGenerator failingReadFile true [sampleGK] noStorageGetCRD
        unitMarshal emptyMarshalTopLevel).1 :=
  generate_rejects_missing_storage plainGenerator failingReadFile [sampleGK]
    noStorageGetCRD unitMarshal emptyMarshalTopLevel sampleGK ""
    (List.Mem.head _) rfl rfl

/-- C2: when some input version is a storage version, conversion succeeds and
the output version list has exactly the input's length, entry `i` of the
output being the conversion of entry `i` of the input (no reordering, no
deduplication). -/
theorem conversion_preserves_version_count_and_order
    (marshal : σ → Option String) (crd : CustomResourceDefinition σ)
    (_hstorage : crd.spec.versions.any (fun v => v.storage) = true) :
    ∃ xrd, CRDToXRDv2 marshal crd = Except.ok xrd ∧
      xrd.spec.versions.length = crd.spec.versions.length ∧
      ∀ i : Nat, xrd.spec.versions[i]? =
        (crd.spec.versions[i]?).map (convertVersion marshal) := by
  refine ⟨_, CRDToXRDv2_eq marshal crd, ?_, ?_⟩
  · simp [convertVersions_eq_map]
  · intro i
    simp [convertVersions_eq_map]

/-- Witness for C2: the sample CRD with one storage version. -/
theorem conversion_preserves_version_count_and_order_witness :
    ∃ xrd, CRDToXRDv2 unitMarshal sampleCRD = Except.ok xrd ∧
      xrd.spec.versions.length = sampleCRD.spec.versions.length ∧
      ∀ i : Nat, xrd.spec.versions[i]? =
        (sampleCRD.spec.versions[i]?).map (convertVersion unitMarshal) :=
  conversion_preserves_version_count_and_order unitMarshal sampleCRD rfl

/-- C3: at every index, the output version's referenceable flag equals the
input version's storage flag and the served flags agree. -/
theorem referenceable_eq_storage_and_served_copied
    (marshal : σ → Option String) (crd : CustomResourceDefinition σ) :
    ∃ xrd, CRDToXRDv2 marshal crd = Except.ok xrd ∧
      ∀ i : Nat,
        xrd.spec.versions[i]?.map (fun v => v.referenceable) =
          crd.spec.versions[i]?.map (fun v => v.storage) ∧
        xrd.spec.versions[i]?.map (fun v => v.served) =
          crd.spec.versions[i]?.map (fun v => v.served) := by
  refine ⟨_, CRDToXRDv2_eq marshal crd, fun i => ?_⟩
  simp only [convertVersions_eq_map, List.getElem?_map]
  cases crd.spec.versions[i]? with
  | none => exact ⟨rfl, rfl⟩
  | some v =>
    simp [convertVersion_referenceable, convertVersion_served]

/-- C4: the mapper is total (always `Except.ok`); a version whose schema the
marshaller fails to encode gets a nil schema, and its entry is still
produced (the output list keeps the full input length). -/
theorem crdToXRDv2_total_and_encode_failure_swallowed
    (marshal : σ → Option String) (crd : CustomResourceDefinition σ)
    (ver : CustomResourceDefinitionVersion σ) (cv : CustomResourceValidation σ)
    (s : σ) (vs : List (CustomResourceDefinitionVersion σ))
    (hcv : ver.schema = some cv) (hosv : cv.openAPIV3Schema = some s)
    (hfail : marshal s = none) :
    (∃ xrd, CRDToXRDv2 marshal crd = Except.ok xrd) ∧
    (convertVersion marshal ver).schema = none ∧
    (convertVersions marshal (vs ++ [ver])).length =
      (vs ++ [ver]).length := by
  refine ⟨⟨_, CRDToXRDv2_eq marshal crd⟩, ?_, ?_⟩
  · rw [convertVersion_schema, hcv]
    simp [convertSchema, hosv, hfail]
  · simp [convertVersions_eq_map]

/-- Witness for C4: a failing marshaller and a version carrying a schema. -/
theorem crdToXRDv2_total_and_encode_failure_swallowed_witness :
    (∃ xrd, CRDToXRDv2 unitMarshal sampleCRD = Except.ok xrd) ∧
    (convertVersion unitMarshal failingSchemaVersion).schema = none ∧
    (convertVersions unitMarshal
      ([sampleVersion] ++ [failingSchemaVersion])).length =
      ([sampleVersion] ++ [failingSchemaVersion]).length :=
  crdToXRDv2_total_and_encode_failure_swallowed unitMarshal sampleCRD
    failingSchemaVersion { openAPIV3Schema := some () } () [sampleVersion]
    rfl rfl rfl

/-- C5: every document written by a `Generate` run has no top-level `status`
key, whatever the serializer produced. -/
theorem written_documents_have_no_status_key
    (g : Generator) (readFile : String → Except String String)
    (metav1Found : Bool) (kubeKinds : List GroupKind)
    (getCRD : GroupKind → CustomResourceDefinition σ)
    (marshal : σ → Option String)
    (mtl : CompositeResourceDefinition → List (String × α))
    (gk : GroupKind) (fn hdr : String) (d : List (String × α))
    (hmem : Event.write gk fn hdr d ∈
      (Generate g readFile metav1Found kubeKinds getCRD marshal mtl).1) :
    "status" ∉ d.map Prod.fst := by
  obtain ⟨s, _, hmem2⟩ := generate_write_mem g readFile metav1Found kubeKinds
    getCRD marshal mtl gk fn hdr d hmem
  exact (processKinds_write_fields _ _ _ _ _ _ _ _ _ hmem2).2.2

/-- Witness for C5: a run whose serializer emits a `status` key; the written
document has it stripped. -/
theorem written_documents_have_no_status_key_witness :
    "status" ∉ ([("spec", (1 : Nat))].map Prod.fst) := by
  have hmem : Event.write sampleGK "example.org_widgets.yaml"
      (String.replace "" " YEAR" (" " ++ plainGenerator.year))
      [("spec", (1 : Nat))] ∈
      (Generate plainGenerator failingReadFile true [sampleGK] storageGetCRD
        unitMarshal statusMarshalTopLevel).1 :=
    List.Mem.tail _ (List.Mem.head _)
  exact written_documents_have_no_status_key plainGenerator failingReadFile
    true [sampleGK] storageGetCRD unitMarshal statusMarshalTopLevel sampleGK
    _ _ _ hmem

/-- C6: deprecation fields appear in the output exactly when the input flag
is true; the warning message is carried verbatim when it does, and dropped
(along with the flag) when the flag is false even if a message is present. -/
theorem deprecation_copied_iff_deprecated_flag
    (marshal : σ → Option String) (ver : CustomResourceDefinitionVersion σ) :
    (ver.deprecated = true →
      (convertVersion marshal ver).deprecated = some true ∧
      (convertVersion marshal ver).deprecationWarning =
        ver.deprecationWarning) ∧
    (ver.deprecated = false →
      (convertVersion marshal ver).deprecated = none ∧
      (convertVersion marshal ver).deprecationWarning = none) :=
  ⟨fun h => convertVersion_deprecated_true marshal ver h,
   fun h => convertVersion_deprecated_false marshal ver h⟩

/-- Witness for C6: a deprecated version with a message, and a
non-deprecated version that carries a message which is dropped. -/
theorem deprecation_copied_iff_deprecated_flag_witness :
    ((convertVersion unitMarshal deprecatedVersion).deprecated = some true ∧
     (convertVersion unitMarshal deprecatedVersion).deprecationWarning =
       deprecatedVersion.deprecationWarning) ∧
    ((convertVersion unitMarshal notDeprecatedVersion).deprecated = none ∧
     (convertVersion unitMarshal notDeprecatedVersion).deprecationWarning =
       none) :=
  ⟨(deprecation_copied_iff_deprecated_flag unitMarshal deprecatedVersion).1
     rfl,
   (deprecation_copied_iff_deprecated_flag unitMarshal notDeprecatedVersion).2
     rfl⟩

/-- C7: the output XRD's identity fields (object name, annotations, labels,
group and names) are unchanged copies of the input CRD's. -/
theorem identity_fields_copied_unchanged
    (marshal : σ → Option String) (crd : CustomResourceDefinition σ) :
    ∃ xrd, CRDToXRDv2 marshal crd = Except.ok xrd ∧
      xrd.objectMeta.name = crd.objectMeta.name ∧
      xrd.objectMeta.annotations = crd.objectMeta.annotations ∧
      xrd.objectMeta.labels = crd.objectMeta.labels ∧
      xrd.spec.group = crd.spec.group ∧
      xrd.spec.names = crd.spec.names :=
  ⟨_, CRDToXRDv2_eq marshal crd, rfl, rfl, rfl, rfl, rfl⟩

/-- C8: with a header file configured and readable, every written file gets
the file's contents with each `" YEAR"` occurrence substituted using the
configured year, and is named `<group>_<plural>.yaml`. -/
theorem header_substitution_and_file_naming
    (g : Generator) (readFile : String → Except String String)
    (metav1Found : Bool) (kubeKinds : List GroupKind)
    (getCRD : GroupKind → CustomResourceDefinition σ)
    (marshal : σ → Option String)
    (mtl : CompositeResourceDefinition → List (String × α))
    (s : String) (gk : GroupKind) (fn hdr : String) (d : List (String × α))
    (hcfg : g.headerFile ≠ "")
    (hread : readFile g.headerFile = Except.ok s)
    (hmem : Event.write gk fn hdr d ∈
      (Generate g readFile metav1Found kubeKinds getCRD marshal mtl).1) :
    hdr = s.replace " YEAR" (" " ++ g.year) ∧
    fn = (getCRD gk).spec.group ++ "_" ++ (getCRD gk).spec.names.plural
      ++ ".yaml" := by
  obtain ⟨s2, hs2, hmem2⟩ := generate_write_mem g readFile metav1Found
    kubeKinds getCRD marshal mtl gk fn hdr d hmem
  have hs2eq : s2 = s := by
    unfold headerRead at hs2
    rw [if_pos hcfg, hread] at hs2
    exact (Except.ok.inj hs2).symm
  subst hs2eq
  obtain ⟨h1, h2, _⟩ := processKinds_write_fields _ _ _ _ _ _ _ _ _ hmem2
  exact ⟨h1, h2⟩

/-- Witness for C8: a configured header file containing the `" YEAR"` token
and a run writing one file. -/
theorem header_substitution_and_file_naming_witness :
    String.replace "Copyright YEAR Example" " YEAR"
        (" " ++ headerGenerator.year) =
      "Copyright YEAR Example".replace " YEAR" (" " ++ headerGenerator.year) ∧
    "example.org_widgets.yaml" =
      (storageGetCRD sampleGK).spec.group ++ "_" ++
        (storageGetCRD sampleGK).spec.names.plural ++ ".yaml" := by
  have hmem : Event.write sampleGK "example.org_widgets.yaml"
      (String.replace "Copyright YEAR Example" " YEAR"
        (" " ++ headerGenerator.year)) ([] : List (String × Nat)) ∈
      (Generate headerGenerator headerReadFile true [sampleGK] storageGetCRD
        unitMarshal emptyMarshalTopLevel).1 :=
    List.Mem.tail _ (List.Mem.head _)
  exact header_substitution_and_file_naming headerGenerator headerReadFile
    true [sampleGK] storageGetCRD unitMarshal emptyMarshalTopLevel
    "Copyright YEAR Example" sampleGK _ _ _ (by decide) rfl hmem

/-- C9: the returned XRD's type metadata is the Crossplane apiextensions v2
group/version string and the kind `CompositeResourceDefinition`, for every
input. -/
theorem typeMeta_is_crossplane_v2
    (marshal : σ → Option String) (crd : CustomResourceDefinition σ) :
    ∃ xrd, CRDToXRDv2 marshal crd = Except.ok xrd ∧
      xrd.typeMeta.apiVersion = SchemeGroupVersionString ∧
      xrd.typeMeta.kind = CompositeResourceDefinitionKind ∧
      xrd.typeMeta.apiVersion = "apiextensions.crossplane.io/v2" ∧
      xrd.typeMeta.kind = "CompositeResourceDefinition" :=
  ⟨_, CRDToXRDv2_eq marshal crd, rfl, rfl, rfl, rfl⟩

/-- C10: in the state-passing embedding the CRD cell threaded through
`CRDToXRDv2` comes back unchanged, and the produced result is the pure
mapper's: the mapper only reads its input. -/
theorem crdToXRDv2_leaves_input_unchanged
    (marshal : σ → Option String) (crd : CustomResourceDefinition σ) :
    (CRDToXRDv2Run marshal crd).2 = crd ∧
    (CRDToXRDv2Run marshal crd).1 = CRDToXRDv2 marshal crd :=
  ⟨rfl, rfl⟩

end CrossplaneGen
